import Mathlib

/-
Shallow embedding of the cube comparison and stacking engine of the
dstack repository (src/dstack/cim.py), together with theorems settling
the claims about it.

Modelling conventions:
- Pixel values are modelled as PyFloat: an explicit NaN constructor plus
  rational values.  Infinities are not modelled; no claim depends on them.
- A numpy ndarray is modelled as a shape together with a total function
  from multi-indices to values (NDArray).
- Python exceptions are modelled as PyErr values returned through Except,
  and warnings as lists of strings collected by the functions that emit
  them.
- The external casacore interface is modelled following section 6 of the
  spec: a coordinate system exposes, per named axis, only the accessors
  of that axis kind (rest frequency on the spectral axis only, projection
  on the direction axis only, stokes types on the stokes axis only).
  Accessing a method the axis object does not have is an AttributeError.
-/

namespace DStack

/-- Python exception kinds raised by the embedded code. -/
inductive PyErr where
  | assertionError
  | attributeError
  | nameError
  | valueError
  | indexError
deriving DecidableEq, Repr

/-- Pixel value: an explicit NaN or an ordinary (rational) number. -/
inductive PyFloat where
  | nan
  | val (q : Rat)
deriving DecidableEq, Repr

/-- Test for the NaN value. -/
def PyFloat.isNaN : PyFloat → Bool
  | .nan => true
  | .val _ => false

/-- IEEE style equality comparison used by numpy ==: NaN is never equal
to anything, ordinary values compare as numbers. -/
def pyEqB : PyFloat → PyFloat → Bool
  | .val x, .val y => decide (x = y)
  | _, _ => false

/-- Absolute value on the rationals, written so that it evaluates by
kernel reduction. -/
def ratAbs (q : Rat) : Rat := if q < 0 then -q else q

/-- Elementwise predicate of np.isclose with atol = 0 and equal_nan = True,
as called by check_CIM_equity: two NaNs are close, an ordinary pair is
close when the absolute difference is at most rtol times the magnitude of
the second argument. -/
def pyCloseNanB (rtol : Rat) : PyFloat → PyFloat → Bool
  | .nan, .nan => true
  | .val x, .val y => decide (ratAbs (x - y) ≤ rtol * ratAbs y)
  | _, _ => false

/-- Elementwise addition, NaN absorbing, as in np.add. -/
def pyAdd : PyFloat → PyFloat → PyFloat
  | .val x, .val y => .val (x + y)
  | _, _ => .nan

/-- Division of a pixel value by a natural number, as used by the
normalisation step of the stacking routine (the divisor there is the
length of the input list, which is at least 2, so the zero divisor case
is never reached by the code under study). -/
def pyDivNat (x : PyFloat) (n : Nat) : PyFloat :=
  match x with
  | .val q => .val (q / (n : Rat))
  | .nan => .nan

/-- Left pad a shape with ones up to length n, as numpy broadcasting does. -/
def padShape (n : Nat) (s : List Nat) : List Nat :=
  List.replicate (n - s.length) 1 ++ s

/-- Broadcast one dimension pair, as numpy does: equal dimensions stay,
a dimension of one stretches to the other, anything else is incompatible. -/
def bdim (m n : Nat) : Option Nat :=
  if m = n then some m
  else if m = 1 then some n
  else if n = 1 then some m
  else none

/-- Broadcast two aligned (equal length) shapes dimension by dimension. -/
def zipBdim : List Nat → List Nat → Option (List Nat)
  | [], [] => some []
  | m :: ms, n :: ns =>
    match bdim m n, zipBdim ms ns with
    | some d, some ds => some (d :: ds)
    | _, _ => none
  | _, _ => none

/-- Broadcast shape of two shapes (numpy general broadcasting): pad the
shorter one with leading ones, then combine dimension by dimension.
Returns none when the shapes are not broadcast compatible. -/
def bshape (s t : List Nat) : Option (List Nat) :=
  zipBdim (padShape (max s.length t.length) s) (padShape (max s.length t.length) t)

/-- All multi-indices of a given shape, in row major order. -/
def allIndices : List Nat → List (List Nat)
  | [] => [[]]
  | n :: rest => (List.range n).flatMap (fun i => (allIndices rest).map (fun ix => i :: ix))

/-- Project a multi-index of a broadcast result shape back into an array
of the given original shape: drop the extra leading coordinates, and read
index zero along every dimension the array had as one. -/
def projIx (shape ix : List Nat) : List Nat :=
  List.zipWith (fun s i => if s = 1 then 0 else i) shape (ix.drop (ix.length - shape.length))

/-- Multi-dimensional array: a shape and a total valuation of
multi-indices (out of range indices are unconstrained). -/
structure NDArray where
  shape : List Nat
  item : List Nat → PyFloat

/-- Embedding of np.array_equiv, used by check_CIM_equity at precision
zero: true when the two shapes are broadcast consistent and all elements
of the common broadcast are equal under the IEEE comparison (so NaN is
never equal to NaN), false otherwise, never an error. -/
def array_equiv (a b : NDArray) : Bool :=
  match bshape a.shape b.shape with
  | none => false
  | some s =>
    (allIndices s).all (fun ix => pyEqB (a.item (projIx a.shape ix)) (b.item (projIx b.shape ix)))

/-- Embedding of np.allclose with atol = 0, rtol given, equal_nan = True,
used by check_CIM_equity at nonzero precision: raises ValueError when the
shapes are not broadcast compatible, otherwise checks every element of
the common broadcast with pyCloseNanB. -/
def allclose (a b : NDArray) (rtol : Rat) : Except PyErr Bool :=
  match bshape a.shape b.shape with
  | none => .error .valueError
  | some s =>
    .ok ((allIndices s).all
      (fun ix => pyCloseNanB rtol (a.item (projIx a.shape ix)) (b.item (projIx b.shape ix))))

/-- Embedding of np.add on two arrays: broadcast both to the common
shape and add elementwise; ValueError when not broadcast compatible. -/
def np_add (a b : NDArray) : Except PyErr NDArray :=
  match bshape a.shape b.shape with
  | none => .error .valueError
  | some s =>
    .ok ⟨s, fun ix => pyAdd (a.item (projIx a.shape ix)) (b.item (projIx b.shape ix))⟩

/-- Spectral axis descriptor of a casacore coordinate system, with
exactly the accessors a spectralcoordinate object has (spec section 6).
It has no stokes types and no projection accessor. -/
structure SpectralAxis where
  frame : String
  unit : String
  increment : Rat
  restfrequency : Rat
  referencepixel : Rat
  referencevalue : Rat
deriving DecidableEq, Repr

/-- Stokes axis descriptor: the stokes types list (spec section 6). -/
structure StokesAxis where
  stokes : List String
deriving DecidableEq, Repr

/-- Direction or linear axis descriptor of the two spatial dimensions.
Frame and projection accessors exist on a direction axis only; on a
linear axis (grids) they are absent, modelled by none. -/
structure SpatialAxis where
  isDirection : Bool
  frame : Option String
  projection : Option String
  unit : List String
  increment : List Rat
  referencepixel : List Rat
  referencevalue : List Rat
deriving DecidableEq, Repr

/-- Coordinate system of a cube: one axis descriptor per named axis. -/
structure CoordSys where
  spectral : SpectralAxis
  stokesAxis : StokesAxis
  spatial : SpatialAxis
deriving DecidableEq, Repr

/-- Open CASAImage handle: name, data array, pixel unit, data type tag,
coordinate system, attribute group names and history log. -/
structure CIM where
  name : String
  data : NDArray
  unit : String
  datatypeStr : String
  coords : CoordSys
  attrgroupnames : List String
  history : List String

/-- Number of axes of the image, as returned by the ndim accessor. -/
def CIM.ndim (c : CIM) : Nat := c.data.shape.length

/-- Copy of a cube with the pixel at one multi-index replaced. -/
def CIM.setAt (c : CIM) (ix : List Nat) (v : PyFloat) : CIM :=
  { c with data := { c.data with item := fun jx => if jx = ix then v else c.data.item jx } }

/-- Argument of create_CIM_object: either a path string or an already
open in-memory image handle. -/
inductive CIMSource where
  | path (p : String)
  | handle (c : CIM)

/-- Python type of a CIMSource value. -/
inductive PyType where
  | strType
  | imageType
deriving DecidableEq, Repr

/-- Python type of the argument, as returned by type(cimpath). -/
def CIMSource.pyType : CIMSource → PyType
  | .path _ => .strType
  | .handle _ => .imageType

/-- Python equality between a type object and a string literal.  A type
object is never equal to a str value, whatever the string says, so this
comparison is constantly false; this is exactly the comparison written on
line 47 of src/dstack/cim.py. -/
def typeEqStrLit (t : PyType) (s : String) : Bool := false

/-- Outcome of create_CIM_object: either the argument was returned
unchanged without any opening call, or casaimage.image was invoked on it
(one opening operation on that argument). -/
inductive CIMResult where
  | returned (x : CIMSource)
  | opened (x : CIMSource)

/-- Embedding of create_CIM_object (src/dstack/cim.py lines 22 to 52).
The source compares type(cimpath) with the string literal naming the
image class; since a type object never equals a str, the test is always
false and the else branch calls casaimage.image on the argument. -/
def create_CIM_object (cimpath : CIMSource) : CIMResult :=
  if typeEqStrLit cimpath.pyType "casacore.images.image.image" then
    .returned cimpath
  else
    .opened cimpath

/-- Embedding of check_CIM_equity (src/dstack/cim.py lines 152 to 196):
assert equal ndim, then at precision zero use np.array_equiv on the two
data arrays, otherwise np.allclose with atol = 0, rtol = numprec and
equal_nan = True. -/
def check_CIM_equity (cimA cimB : CIM) (numprec : Rat) : Except PyErr Bool :=
  if cimA.ndim ≠ cimB.ndim then .error .assertionError
  else if numprec = 0 then .ok (array_equiv cimA.data cimB.data)
  else allclose cimA.data cimB.data numprec

/-- Embedding of check_CIM_coordinate_equity (src/dstack/cim.py lines
219 to 344).  The control flow of the source is reproduced faithfully,
including two slips it contains:
- line 258 reads the coordinate system of cimA into both coordsA and
  coordsB, so every axis comparison compares cube A with itself;
- the variables axis_a and axis_b are bound once, on line 272, to the
  spectral axis objects and are never rebound, so the stokes section on
  line 300 calls get_stokes on a spectral axis object, which has no such
  accessor, raising AttributeError; the direction section and the final
  return True (lines 303 to 344) are therefore unreachable.
On success the function would return the list of emitted warnings and
True; in fact it always ends in an error: AssertionError when ndim or
pixel unit differ, AttributeError otherwise. -/
def check_CIM_coordinate_equity (cimA cimB : CIM) : Except PyErr (List String × Bool) :=
  if cimA.ndim ≠ cimB.ndim then .error .assertionError
  else if cimA.unit ≠ cimB.unit then .error .assertionError
  else
    let coordsA := cimA.coords
    let coordsB := cimA.coords
    let axis_a := coordsA.spectral
    let axis_b := coordsB.spectral
    if axis_a.frame ≠ axis_b.frame then .error .assertionError
    else
      let spectralPart : Except PyErr (List String) :=
        if axis_a.unit = axis_b.unit then
          if axis_a.increment ≠ axis_b.increment then .error .assertionError
          else if axis_a.restfrequency ≠ axis_b.restfrequency then .error .assertionError
          else if axis_a.referencepixel = axis_b.referencepixel then
            if axis_a.referencevalue ≠ axis_b.referencevalue then .error .assertionError
            else .ok []
          else .ok ["different spectral coordinate reference pixel"]
        else .ok ["different spectral coordinate units"]
      match spectralPart with
      | .error e => .error e
      | .ok _ws => .error .attributeError

/-- Embedding of create_CIM_diff_array (src/dstack/cim.py lines 382 to
444).  After opening the two handles, line 427 of the source calls
ensure_same_dims(a, b) where the names a and b are unbound in that scope
and at module level, so the function raises NameError on every input
before any difference is computed; the difference computation further
down is dead code. -/
def create_CIM_diff_array (cimA cimB : CIM) (rel_diff all_dim : Bool)
    (chan pol : Nat) : Except PyErr NDArray :=
  .error .nameError

/-- Embedding of the all_dim branch of measure_CIM_RMS (src/dstack/cim.py
lines 480 to 491, taken with all_dim set to True, the full_cube mode of
the spec).  The branch allocates np.zeros over the first two shape
entries, then loops over them; the first executed loop body assigns to
rms_matrix[i, j], and the names i and j are unbound, so any cube with
both leading dimensions positive raises NameError; when either leading
dimension is zero the loop bodies never run and the zero matrix is
returned. -/
def measure_CIM_RMS_full (cim : CIM) : Except PyErr (List (List PyFloat)) :=
  match cim.data.shape with
  | s0 :: s1 :: _ =>
    if s0 = 0 || s1 = 0 then
      .ok (List.replicate s0 (List.replicate s1 (PyFloat.val 0)))
    else
      .error .nameError
  | _ => .error .indexError

/-- Warnings emitted by the two lambda checks of CIM_stacking_base
(src/dstack/cim.py lines 549 and 550) on one cube: a warning when the
attribute group list is non-empty, and one when the history is. -/
def attrHistWarnings (c : CIM) : List String :=
  (if c.attrgroupnames = [] then [] else ["non-empty attribute list: " ++ c.name]) ++
    (if c.history = [] then [] else ["non-empty history field: " ++ c.name])

/-- Observable effects of one run of CIM_stacking_base: whether the
output image was created on disk, the array passed to the final putdata
call when it was reached, the warnings emitted, and the exception the
run ended with, if any. -/
structure StackEffects where
  outputCreated : Bool
  writtenData : Option NDArray
  warnings : List String
  error : Option PyErr

/-- Loop body of CIM_stacking_base (src/dstack/cim.py lines 573 to 584):
for each remaining cube assert equal datatype and ndim with the base,
assert coordinate equity against the stacked output image, emit the
attribute and history warnings, and accumulate with np.add.  Returns the
warnings emitted so far and either the accumulated array or the error
that aborted the loop. -/
def stackLoop (stacked_cim base : CIM) (acc : NDArray) :
    List CIM → List String × Except PyErr NDArray
  | [] => ([], .ok acc)
  | cim :: rest =>
    if base.datatypeStr ≠ cim.datatypeStr then ([], .error .assertionError)
    else if base.ndim ≠ cim.ndim then ([], .error .assertionError)
    else
      match check_CIM_coordinate_equity cim stacked_cim with
      | .error e => ([], .error e)
      | .ok (ws, eqOk) =>
        if !eqOk then (ws, .error .assertionError)
        else
          let ws2 := attrHistWarnings cim
          match np_add acc cim.data with
          | .error e => (ws ++ ws2, .error e)
          | .ok acc2 =>
            let rec2 := stackLoop stacked_cim base acc2 rest
            (ws ++ ws2 ++ rec2.1, rec2.2)

/-- Embedding of CIM_stacking_base (src/dstack/cim.py lines 500 to 594).
Arguments: the list of (already opened) input cubes, whether a directory
already exists at the output path, and the normalise and overwrite
flags.  The source first asserts at least two inputs, then asserts
overwrite when the output path exists; only after both checks does it
create the output image with the coordinate system, data and (via
set_CIM_unit) pixel unit of the first cube, run the accumulation loop,
optionally divide by the number of inputs, and write the result with a
single putdata call. -/
def CIM_stacking_base (cimpath_list : List CIM) (outputExists normalise overwrite : Bool) :
    StackEffects :=
  match cimpath_list with
  | [] => ⟨false, none, [], some .assertionError⟩
  | [_] => ⟨false, none, [], some .assertionError⟩
  | base :: rest =>
    if outputExists && !overwrite then ⟨false, none, [], some .assertionError⟩
    else
      let ws0 := attrHistWarnings base
      let stacked_cim : CIM := { base with name := "stacked" }
      let res := stackLoop stacked_cim base base.data rest
      match res.2 with
      | .error e => ⟨true, none, ws0 ++ res.1, some e⟩
      | .ok acc =>
        let finalData : NDArray :=
          if normalise then
            { acc with item := fun ix => pyDivNat (acc.item ix) cimpath_list.length }
          else acc
        ⟨true, some finalData, ws0 ++ res.1, none⟩

/-- Sample spectral axis used by the concrete cubes below. -/
def specLSRK : SpectralAxis :=
  { frame := "LSRK", unit := "Hz", increment := 1, restfrequency := 1420,
    referencepixel := 0, referencevalue := 0 }

/-- Sample stokes axis with a single polarization. -/
def stokesI : StokesAxis := { stokes := ["I"] }

/-- Sample direction axis for the two spatial dimensions. -/
def dirJ2000 : SpatialAxis :=
  { isDirection := true, frame := some "J2000", projection := some "SIN",
    unit := ["rad", "rad"], increment := [1, 1],
    referencepixel := [0, 0], referencevalue := [0, 0] }

/-- Sample coordinate system. -/
def coords0 : CoordSys := { spectral := specLSRK, stokesAxis := stokesI, spatial := dirJ2000 }

/-- Constant 1 by 1 by 1 by 1 array with the given value. -/
def arr1111 (v : PyFloat) : NDArray := ⟨[1, 1, 1, 1], fun _ => v⟩

/-- Concrete single pixel cube holding the value 1. -/
def cube0 : CIM :=
  { name := "cube0", data := arr1111 (.val 1), unit := "Jy/beam",
    datatypeStr := "float", coords := coords0, attrgroupnames := [], history := [] }

/-- Cube identical to cube0 except for a barycentric spectral frame. -/
def cubeBary : CIM :=
  { cube0 with
    name := "cubeBary",
    coords := { coords0 with spectral := { specLSRK with frame := "BARY" } } }

/-- Cube whose single pixel is NaN. -/
def nanCube : CIM := { cube0 with name := "nanCube", data := arr1111 .nan }

/-- Cube whose single pixel is 0. -/
def zeroCube : CIM := { cube0 with name := "zeroCube", data := arr1111 (.val 0) }

/-- Cube of shape 1 by 1 by 1 by 3 with every pixel 7. -/
def sevenRow : CIM :=
  { cube0 with name := "sevenRow", data := ⟨[1, 1, 1, 3], fun _ => .val 7⟩ }

/-- Cube of shape 1 by 1 by 1 by 1 with pixel 7. -/
def sevenCell : CIM := { cube0 with name := "sevenCell", data := arr1111 (.val 7) }

/-- Cube of shape 1 by 1 by 1 by 2, not broadcast compatible with
sevenRow. -/
def twoCell : CIM :=
  { cube0 with name := "twoCell", data := ⟨[1, 1, 1, 2], fun _ => .val 0⟩ }

/-- Shape test of numpy broadcast-to: the first shape can be broadcast
to the second exactly when the general broadcast of the two shapes is
the second shape itself. -/
def canBroadcastTo (s t : List Nat) : Bool := decide (bshape s t = some t)

/-- One array is broadcast-equivalent to a second: its shape broadcasts
to the shape of the second, and after that broadcast every element
equals the corresponding element of the second under the IEEE
comparison. -/
def broadcastsToEqB (a b : NDArray) : Bool :=
  canBroadcastTo a.shape b.shape &&
    (allIndices b.shape).all (fun ix => pyEqB (a.item (projIx a.shape ix)) (b.item ix))

/-- The IEEE style equality comparison is symmetric. -/
theorem pyEqB_symm (a b : PyFloat) : pyEqB a b = pyEqB b a := by
  cases a <;> cases b <;> simp [pyEqB, eq_comm]

/-- Broadcasting a single dimension pair is commutative. -/
theorem bdim_comm (m n : Nat) : bdim m n = bdim n m := by
  unfold bdim
  by_cases h1 : m = n
  · subst h1; simp
  · have h2 : ¬ n = m := fun e => h1 e.symm
    by_cases h3 : m = 1
    · have h4 : ¬ n = 1 := fun e => h1 (h3.trans e.symm)
      have h5 : ¬ 1 = n := fun e => h4 e.symm
      simp [h1, h2, h3, h4, h5]
    · have h5 : ¬ 1 = m := fun e => h3 e.symm
      by_cases h4 : n = 1
      · simp [h1, h2, h3, h4, h5]
      · simp [h1, h2, h3, h4]

/-- Aligned shape broadcasting is commutative. -/
theorem zipBdim_comm : ∀ s t : List Nat, zipBdim s t = zipBdim t s := by
  intro s
  induction s with
  | nil => intro t; cases t <;> rfl
  | cons m ms ih =>
    intro t
    cases t with
    | nil => rfl
    | cons n ns => simp only [zipBdim]; rw [bdim_comm, ih]

/-- General shape broadcasting is commutative. -/
theorem bshape_comm (s t : List Nat) : bshape s t = bshape t s := by
  unfold bshape
  rw [Nat.max_comm, zipBdim_comm]

/-- Aligned broadcasting of a shape with itself is itself. -/
theorem zipBdim_self (s : List Nat) : zipBdim s s = some s := by
  induction s with
  | nil => rfl
  | cons m ms ih => simp [zipBdim, bdim, ih]

/-- A shape broadcast with itself is itself. -/
theorem bshape_self (s : List Nat) : bshape s s = some s := by
  unfold bshape
  rw [Nat.max_self]
  have hpad : padShape s.length s = s := by
    unfold padShape
    rw [Nat.sub_self]
    rfl
  rw [hpad]
  exact zipBdim_self s

/-- Two boolean alls over one list agree when the predicates agree on
its members. -/
theorem all_eq_of_forall_eq {α : Type} (l : List α) (f g : α → Bool)
    (h : ∀ x ∈ l, f x = g x) : l.all f = l.all g := by
  induction l with
  | nil => rfl
  | cons a as ih =>
    simp only [List.all_cons]
    rw [h a (by simp), ih (fun x hx => h x (by simp [hx]))]

/-- Membership in the index enumeration of a shape is pointwise
boundedness. -/
theorem allIndices_mem {s ix : List Nat} :
    ix ∈ allIndices s ↔ List.Forall₂ (fun i n => i < n) ix s := by
  induction s generalizing ix with
  | nil =>
    simp only [allIndices, List.mem_singleton, List.forall₂_nil_right_iff]
  | cons n rest ih =>
    simp only [allIndices, List.mem_flatMap, List.mem_map, List.mem_range,
      List.forall₂_cons_right_iff]
    constructor
    · rintro ⟨i, hi, jx, hjx, rfl⟩
      exact ⟨i, jx, hi, ih.mp hjx, rfl⟩
    · rintro ⟨i, jx, hi, hjx, rfl⟩
      exact ⟨i, hi, jx, ih.mpr hjx, rfl⟩

/-- Auxiliary form of projIx on aligned lists: projecting an in-range
index changes nothing. -/
theorem zipIf_self {s ix : List Nat} (h : List.Forall₂ (fun i n => i < n) ix s) :
    List.zipWith (fun d i => if d = 1 then 0 else i) s ix = ix := by
  induction h with
  | nil => rfl
  | @cons i n tlix tls hin _ ih =>
    simp only [List.zipWith]
    rw [ih]
    have hhd : (if n = 1 then 0 else i) = i := by split <;> omega
    rw [hhd]

/-- Projecting an in-range multi-index of a shape into that same shape
is the identity. -/
theorem projIx_self {s ix : List Nat} (h : List.Forall₂ (fun i n => i < n) ix s) :
    projIx s ix = ix := by
  unfold projIx
  rw [h.length_eq, Nat.sub_self, List.drop_zero]
  exact zipIf_self h

/-- Equivalence under np.array_equiv is symmetric. -/
theorem array_equiv_symm (a b : NDArray) : array_equiv a b = array_equiv b a := by
  unfold array_equiv
  rw [bshape_comm]
  cases h : bshape b.shape a.shape with
  | none => rfl
  | some s =>
    exact all_eq_of_forall_eq _ _ _ (fun ix _ => pyEqB_symm _ _)

/-- Replacing, in both arrays of an allclose comparison at any tolerance,
one position where both hold NaN by the ordinary value 0 in both does
not change the result: with equal_nan set, a NaN pair behaves exactly
like an agreeing ordinary pair. -/
theorem allclose_nan_subst (a b : NDArray) (p : Rat) (ix : List Nat)
    (hsh : a.shape = b.shape) (ha : a.item ix = .nan) (hb : b.item ix = .nan) :
    allclose a b p =
      allclose ⟨a.shape, fun jx => if jx = ix then .val 0 else a.item jx⟩
        ⟨b.shape, fun jx => if jx = ix then .val 0 else b.item jx⟩ p := by
  unfold allclose
  dsimp only
  rw [← hsh, bshape_self]
  dsimp only
  congr 1
  apply all_eq_of_forall_eq
  intro jx hjx
  have hproj : projIx a.shape jx = jx := projIx_self (allIndices_mem.mp hjx)
  rw [hproj]
  by_cases hc : jx = ix
  · subst hc
    rw [ha, hb]
    simp [pyCloseNanB, ratAbs]
  · simp [hc]

/-- Claim C4, amended: for every nonzero precision, check_CIM_equity
treats a position where both cubes hold NaN as an agreement: replacing
such a position by the ordinary value 0 in both cubes leaves the result
unchanged.  (At precision exactly zero this fails: the counterexample
theorem shows that np.array_equiv compares NaN with IEEE equality, so a
cube containing NaN is not even equal to itself.) -/
theorem equity_nan_pair_neutral (A B : CIM) (p : Rat) (ix : List Nat)
    (hp : p ≠ 0) (hsh : A.data.shape = B.data.shape)
    (hA : A.data.item ix = .nan) (hB : B.data.item ix = .nan) :
    check_CIM_equity A B p =
      check_CIM_equity (A.setAt ix (.val 0)) (B.setAt ix (.val 0)) p := by
  unfold check_CIM_equity
  have hnd : ¬ (A.ndim ≠ B.ndim) := by unfold CIM.ndim; rw [hsh]; simp
  have hnd2 : ¬ ((A.setAt ix (.val 0)).ndim ≠ (B.setAt ix (.val 0)).ndim) := hnd
  rw [if_neg hnd, if_neg hnd2, if_neg hp, if_neg hp]
  exact allclose_nan_subst A.data B.data p ix hsh hA hB

/-- Witness for the amended claim C4 at a concrete input: the single
pixel NaN cube against itself at precision 1. -/
theorem equity_nan_pair_neutral_witness :
    (1 : Rat) ≠ 0 ∧
      check_CIM_equity nanCube nanCube 1 =
        check_CIM_equity (nanCube.setAt [0, 0, 0, 0] (.val 0))
          (nanCube.setAt [0, 0, 0, 0] (.val 0)) 1 :=
  ⟨one_ne_zero,
    equity_nan_pair_neutral nanCube nanCube 1 [0, 0, 0, 0] one_ne_zero rfl rfl rfl⟩

/-- Counterexample to claim C4 as stated: with precision exactly 0,
check_CIM_equity compares the single pixel NaN cube against itself with
np.array_equiv, whose IEEE comparison makes NaN unequal to NaN, so the
result is false although every position holds NaN in both cubes. -/
theorem equity_nan_zero_precision_cex :
    check_CIM_equity nanCube nanCube 0 = .ok false := rfl

/-- Claim C5, amended: check_CIM_equity is symmetric at precision
exactly 0 (np.array_equiv is symmetric); at nonzero precision symmetry
fails in general, because np.allclose measures the tolerance relative to
its second argument only, as the counterexample theorem shows. -/
theorem equity_symmetric_at_zero (A B : CIM) :
    check_CIM_equity A B 0 = check_CIM_equity B A 0 := by
  unfold check_CIM_equity
  by_cases h : A.ndim = B.ndim
  · have h1 : ¬ (A.ndim ≠ B.ndim) := by simp [h]
    have h2 : ¬ (B.ndim ≠ A.ndim) := by simp [h]
    rw [if_neg h1, if_neg h2, if_pos rfl, if_pos rfl, array_equiv_symm]
  · have h1 : A.ndim ≠ B.ndim := h
    have h2 : B.ndim ≠ A.ndim := fun e => h e.symm
    rw [if_pos h1, if_pos h2]

/-- Counterexample to claim C5 as stated: at precision 1 the zero cube
is within relative tolerance of the one cube, but not conversely, since
the tolerance is scaled by the magnitude of the second cube only. -/
theorem equity_not_symmetric_cex :
    check_CIM_equity zeroCube cube0 1 = .ok true ∧
      check_CIM_equity cube0 zeroCube 1 = .ok false := by
  constructor
  · simp [check_CIM_equity, CIM.ndim, zeroCube, cube0, arr1111, allclose, bshape,
      padShape, zipBdim, bdim, allIndices, projIx, pyCloseNanB, ratAbs]
    norm_num
  · simp [check_CIM_equity, CIM.ndim, zeroCube, cube0, arr1111, allclose, bshape,
      padShape, zipBdim, bdim, allIndices, projIx, pyCloseNanB, ratAbs]
    norm_num

/-- Claim C10: at precision exactly 0, check_CIM_equity uses
np.array_equiv, so for two cubes of equal ndim it returns true whenever
one data array can be broadcast to equal the other, and returns false,
rather than raising, when the two shapes are not broadcast
consistent. -/
theorem equity_zero_broadcast_semantics (A B : CIM) (h : A.ndim = B.ndim) :
    ((broadcastsToEqB A.data B.data || broadcastsToEqB B.data A.data) = true →
        check_CIM_equity A B 0 = .ok true) ∧
    (bshape A.data.shape B.data.shape = none → check_CIM_equity A B 0 = .ok false) := by
  have hif : check_CIM_equity A B 0 = .ok (array_equiv A.data B.data) := by
    unfold check_CIM_equity
    have h1 : ¬ (A.ndim ≠ B.ndim) := by simp [h]
    rw [if_neg h1, if_pos rfl]
  constructor
  · intro hb
    rw [hif]
    have heq : array_equiv A.data B.data = true := by
      rcases Bool.or_eq_true_iff.mp hb with h1 | h1
      · unfold broadcastsToEqB at h1
        obtain ⟨hcan, hall⟩ := Bool.and_eq_true_iff.mp h1
        have hbs : bshape A.data.shape B.data.shape = some B.data.shape :=
          of_decide_eq_true (by unfold canBroadcastTo at hcan; exact hcan)
        unfold array_equiv
        rw [hbs]
        dsimp only
        have hstep : ((allIndices B.data.shape).all fun ix =>
            pyEqB (A.data.item (projIx A.data.shape ix)) (B.data.item (projIx B.data.shape ix))) =
            ((allIndices B.data.shape).all fun ix =>
              pyEqB (A.data.item (projIx A.data.shape ix)) (B.data.item ix)) := by
          apply all_eq_of_forall_eq
          intro ix hix
          rw [projIx_self (allIndices_mem.mp hix)]
        rw [hstep]
        exact hall
      · unfold broadcastsToEqB at h1
        obtain ⟨hcan, hall⟩ := Bool.and_eq_true_iff.mp h1
        have hbs : bshape B.data.shape A.data.shape = some A.data.shape :=
          of_decide_eq_true (by unfold canBroadcastTo at hcan; exact hcan)
        unfold array_equiv
        rw [bshape_comm, hbs]
        dsimp only
        have hstep : ((allIndices A.data.shape).all fun ix =>
            pyEqB (A.data.item (projIx A.data.shape ix)) (B.data.item (projIx B.data.shape ix))) =
            ((allIndices A.data.shape).all fun ix =>
              pyEqB (B.data.item (projIx B.data.shape ix)) (A.data.item ix)) := by
          apply all_eq_of_forall_eq
          intro ix hix
          rw [projIx_self (allIndices_mem.mp hix)]
          exact pyEqB_symm _ _
        rw [hstep]
        exact hall
    rw [heq]
  · intro hn
    rw [hif]
    unfold array_equiv
    rw [hn]

/-- Witness for claim C10 at concrete inputs: the single pixel cube of
value 7 broadcasts to equal the 1 by 1 by 1 by 3 cube of value 7, and
equity at precision 0 returns true; the 1 by 1 by 1 by 2 cube has a
shape that is not broadcast consistent with it, and equity at precision
0 returns false instead of raising. -/
theorem equity_zero_broadcast_semantics_witness :
    ((broadcastsToEqB sevenCell.data sevenRow.data ||
        broadcastsToEqB sevenRow.data sevenCell.data) = true ∧
      check_CIM_equity sevenCell sevenRow 0 = .ok true) ∧
    (bshape twoCell.data.shape sevenRow.data.shape = none ∧
      check_CIM_equity twoCell sevenRow 0 = .ok false) :=
  ⟨⟨rfl, (equity_zero_broadcast_semantics sevenCell sevenRow rfl).1 rfl⟩,
   ⟨rfl, (equity_zero_broadcast_semantics twoCell sevenRow rfl).2 rfl⟩⟩

/-- Claim C1: the claim states that for equal shaped cubes that are
equal at precision 0 the full cube difference is the all zero array.
The source cannot produce any difference array: line 427 of
src/dstack/cim.py calls ensure_same_dims(a, b) where the names a and b
are unbound in the function and at module scope, so create_CIM_diff_array
raises NameError on every input, including the failing input of a cube
paired with itself. -/
theorem create_CIM_diff_array_always_nameError :
    ∀ (a b : CIM) (rd ad : Bool) (ch pl : Nat),
      create_CIM_diff_array a b rd ad ch pl = .error .nameError :=
  fun _ _ _ _ _ _ => rfl

/-- Claim C2: the claim states that a spectral frame mismatch makes
check_CIM_coordinate_equity raise the frame mismatch assertion.  In the
source, line 258 reads the coordinate system of the first cube into
both coordsA and coordsB, so the frame assertion compares the first
cube with itself and can never fire; the function instead raises
AttributeError at the stokes section (line 300 calls get_stokes on the
spectral axis object).  The theorem shows the frames of the two
concrete cubes differ, yet the run ends in AttributeError, the same
outcome as for the frame matched pair, not in the frame assertion
failure the claim describes. -/
theorem coordinate_equity_frame_mismatch_undetected :
    cube0.coords.spectral.frame ≠ cubeBary.coords.spectral.frame ∧
    check_CIM_coordinate_equity cube0 cubeBary = .error .attributeError ∧
    check_CIM_coordinate_equity cubeBary cubeBary = .error .attributeError :=
  ⟨by decide, rfl, rfl⟩

/-- Claim C9: the claim states that checking a cube against itself
returns true with no warnings.  In fact the run aborts with
AttributeError: the variable axis_a still holds the spectral axis object
when line 300 of the source calls get_stokes on it, an accessor only the
stokes axis has, so the function never reaches its return True. -/
theorem coordinate_equity_self_crashes :
    check_CIM_coordinate_equity cube0 cube0 = .error .attributeError := rfl

/-- Claim C3: the claim states that stacking a cube with itself under
normalise yields an output equal to that cube.  The run creates the
output image but then aborts inside the accumulation loop: the
coordinate equity check against the stacked image raises AttributeError
(get_stokes called on the spectral axis object, line 300 of the source),
so the final putdata with the normalised data is never reached. -/
theorem stacking_AA_crashes :
    (CIM_stacking_base [cube0, cube0] false true false).error =
      some PyErr.attributeError ∧
    (CIM_stacking_base [cube0, cube0] false true false).writtenData = none ∧
    (CIM_stacking_base [cube0, cube0] false true false).outputCreated = true :=
  ⟨rfl, rfl, rfl⟩

/-- Claim C6: the claim states create_CIM_object returns an already open
handle unchanged.  The type test on line 47 of the source compares the
type object of the argument with a string literal, which is always
false, so an already open handle falls into the else branch and is
passed to casaimage.image again: it is opened a second time, not
returned unchanged. -/
theorem create_CIM_object_reopens_handle :
    ∀ c : CIM,
      create_CIM_object (CIMSource.handle c) = CIMResult.opened (CIMSource.handle c) ∧
      create_CIM_object (CIMSource.handle c) ≠ CIMResult.returned (CIMSource.handle c) :=
  fun c => ⟨rfl, fun h => CIMResult.noConfusion h⟩

/-- Claim C7: CIM_stacking_base rejects every input list of fewer than
two cubes with the assertion on line 538 of the source, and rejects an
existing output path without overwrite with the assertion on line 542;
in both cases the failure occurs before the output image is created, so
no output cube is produced and nothing is written. -/
theorem stacking_preconditions (cims : List CIM) (outputExists normalise overwrite : Bool) :
    (cims.length < 2 →
      CIM_stacking_base cims outputExists normalise overwrite =
        ⟨false, none, [], some .assertionError⟩) ∧
    (outputExists = true → overwrite = false →
      CIM_stacking_base cims outputExists normalise overwrite =
        ⟨false, none, [], some .assertionError⟩) := by
  constructor
  · intro hlen
    match cims, hlen with
    | [], _ => rfl
    | [_], _ => rfl
    | c1 :: c2 :: rest, h => exact absurd h (by simp [List.length_cons])
  · intro h1 h2
    subst h1
    subst h2
    match cims with
    | [] => rfl
    | [_] => rfl
    | c1 :: c2 :: rest => rfl

/-- Witness for claim C7 at concrete inputs: a singleton list is
rejected, and a two element list into an existing output without
overwrite is rejected; neither run creates or writes an output. -/
theorem stacking_preconditions_witness :
    ([cube0].length < 2 ∧
      CIM_stacking_base [cube0] false false false =
        ⟨false, none, [], some .assertionError⟩) ∧
    CIM_stacking_base [cube0, cube0] true false false =
      ⟨false, none, [], some .assertionError⟩ :=
  ⟨⟨by decide, (stacking_preconditions [cube0] false false false).1 (by decide)⟩,
   (stacking_preconditions [cube0, cube0] true false false).2 rfl rfl⟩

/-- Claim C8: the claim states that rms with full_cube returns the
matrix of per slice RMS values.  The all_dim branch of measure_CIM_RMS
assigns to rms_matrix[i, j] on line 487 of the source, and the names i
and j are unbound, so for any cube with a positive number of channels
and polarizations, such as the concrete 1 by 1 by 1 by 1 cube, the
function raises NameError instead of returning the matrix. -/
theorem measure_RMS_full_nameError :
    measure_CIM_RMS_full cube0 = .error .nameError := rfl

end DStack
